import Mathlib

/-!
# Verification of the PDF document analyzer's RAG pipeline

Shallow embedding of the repository's core logic:

* `src/utils/qa_pipeline.py` — `QAPipeline` (`setup_qa_pipeline`, `query_chain`,
  `get_vector_store_info`, `clear_vector_store`);
* `src/utils/pdf_loader.py` — `PDFLoader.load_pdf`, `get_chunk_info`;
* `src/main.py` — `process_pdf` orchestration;
* the chunker (langchain's `RecursiveCharacterTextSplitter`, configured in
  `pdf_loader.py` but whose code is not part of this repository) is modelled
  from the spec.

External effects (the Chroma vector backend, the HuggingFace embedder, the
LLM call inside the RetrievalQA chain, PyPDF2 reads, the filesystem) are
passed in as explicit parameters: a fallible call becomes an
`Except String _` value or function, mirroring Python's raise/except.
-/

namespace PdfQa

/-- Python's `str.strip()` whitespace set (ASCII part), used by
`question.strip()` in `query_chain` and `text_content.strip()` in `load_pdf`. -/
def isPyWhitespace (c : Char) : Bool :=
  c = ' ' || c = '\t' || c = '\n' || c = '\r' || c = '\x0b' || c = '\x0c'

/-- `not s.strip()` in Python: the string is empty or all-whitespace. -/
def isBlank (s : String) : Bool :=
  s.data.all isPyWhitespace

/-- The Chroma collection created by `Chroma.from_texts` in
`setup_qa_pipeline`: a named collection holding one entry per input text
(the vector backend's insert/count contract, spec section 6). -/
structure VectorStore where
  collection_name : String
  entries : List String
deriving DecidableEq

/-- The `RetrievalQA` chain built in `setup_qa_pipeline`: a retriever over
the vector store with fixed `k` (the code passes `search_kwargs={"k": 3}`). -/
structure RetrievalQAChain where
  store : VectorStore
  k : Nat
deriving DecidableEq

/-- The mutable fields of `QAPipeline` relevant to the pipeline logic:
`self.vector_store` and `self.qa_chain`, both `None` after `__init__`
(lines 65-66 of `qa_pipeline.py`). -/
structure QAPipelineState where
  vector_store : Option VectorStore
  qa_chain : Option RetrievalQAChain
deriving DecidableEq

/-- The state right after `QAPipeline.__init__`: both fields are `None`. -/
def initState : QAPipelineState := ⟨none, none⟩

/-- A source document as `query_chain` inspects it with `hasattr`:
it may carry a `page_content` attribute, a `content` attribute, or neither. -/
inductive Doc where
  | pageContent (s : String)
  | contentAttr (s : String)
  | plain
deriving DecidableEq

/-- The dictionary returned by calling the `RetrievalQA` chain:
`result.get("result", ...)` and `result.get("source_documents", [])`. -/
structure ChainOutput where
  result : Option String
  source_documents : List Doc
deriving DecidableEq

/-- The dictionary `query_chain` returns:
`{"answer": ..., "sources": ..., "source_count": ...}`. -/
structure QueryResult where
  answer : String
  sources : List String
  source_count : Nat
deriving DecidableEq

/-- `doc.page_content[:200] + "..." if len(doc.page_content) > 200 else
doc.page_content` (line 153 of `qa_pipeline.py`; Python slices and `len`
count code points, as `List.take` / `List.length` on `String.data` do). -/
def truncateSource (content : String) : String :=
  if content.length > 200 then String.mk (content.data.take 200) ++ "..." else content

/-- One iteration of the source-formatting loop (lines 150-158): a doc with a
`page_content` or `content` attribute contributes its truncated text; a doc
with neither attribute is skipped. -/
def formatSource : Doc → Option String
  | .pageContent c => some (truncateSource c)
  | .contentAttr c => some (truncateSource c)
  | .plain => none

/-- `QAPipeline.query_chain` (lines 124-171). The call
`self.qa_chain({"query": question})` is the external effect, passed as
`chain`; any exception it raises is the `Except.error` case, which the
`except` block converts into an error-message `QueryResult`. -/
def query_chain (s : QAPipelineState) (question : String)
    (chain : String → Except String ChainOutput) : Except String QueryResult :=
  match s.qa_chain with
  | none => .error "QA pipeline not initialized. Call setup_qa_pipeline first."
  | some _ =>
    if isBlank question then .error "Question cannot be empty"
    else
      match chain question with
      | .error e => .ok ⟨"Error processing question: " ++ e, [], 0⟩
      | .ok result =>
        let answer := result.result.getD "No answer generated"
        let sources := result.source_documents.filterMap formatSource
        .ok ⟨answer, sources, sources.length⟩

/-- `QAPipeline.setup_qa_pipeline` (lines 68-122). `storeErr` models
`Chroma.from_texts` raising; `chainErr` models `RetrievalQA.from_chain_type`
raising; `suffix` models the `uuid.uuid4().hex[:8]` collection-name suffix.
On backend success the collection holds exactly the input `chunks`
(the vector backend's insert contract, spec section 6). The returned state
reflects the partial mutation order of the Python code: `self.vector_store`
is assigned before the chain is built, `self.qa_chain` last. -/
def setup_qa_pipeline (s : QAPipelineState) (chunks : List String)
    (storeErr chainErr : Option String) (suffix : String) :
    QAPipelineState × Except String Unit :=
  if chunks = [] then (s, .error "No text chunks provided")
  else
    match storeErr with
    | some e => (s, .error ("Failed to create vector store: " ++ e))
    | none =>
      let vs : VectorStore := ⟨"pdf_qa_collection_" ++ suffix, chunks⟩
      let s1 : QAPipelineState := { s with vector_store := some vs }
      match chainErr with
      | some e => (s1, .error ("Failed to create QA chain: " ++ e))
      | none => ({ s1 with qa_chain := some ⟨vs, 3⟩ }, .ok ())

/-- The dictionary returned by `get_vector_store_info`. -/
structure VectorStoreInfo where
  total_documents : Nat
  collection_name : Option String
deriving DecidableEq

/-- `QAPipeline.get_vector_store_info` (lines 173-193). `countErr` models
`collection.count()` raising, in which case the `except` block returns
`{"total_documents": 0}`. -/
def get_vector_store_info (s : QAPipelineState) (countErr : Bool) : VectorStoreInfo :=
  match s.vector_store with
  | none => ⟨0, none⟩
  | some vs => if countErr then ⟨0, none⟩ else ⟨vs.entries.length, some vs.collection_name⟩

/-- `QAPipeline.clear_vector_store` (lines 195-207). `deleteErr` models the
`chromadb.Client()` / `delete_collection` call raising. The assignments
`self.vector_store = None` and `self.qa_chain = None` sit inside the `try`
block AFTER the delete call, so when the delete raises, the bare
`except: pass` leaves both fields as they were. -/
def clear_vector_store (s : QAPipelineState) (deleteErr : Option String) :
    QAPipelineState :=
  match s.vector_store with
  | none => s
  | some _ =>
    match deleteErr with
    | some _ => s
    | none => { s with vector_store := none, qa_chain := none }

/-- States of a `QAPipeline` on which no `setup_qa_pipeline` call has
succeeded: the fresh state after `__init__`, and any state reached from such
a state by a failed `setup_qa_pipeline` attempt. -/
inductive NoSuccessfulIngest : QAPipelineState → Prop
  | init : NoSuccessfulIngest initState
  | setupFailed {s s' : QAPipelineState} {chunks : List String}
      {storeErr chainErr : Option String} {suffix e : String} :
      NoSuccessfulIngest s →
      setup_qa_pipeline s chunks storeErr chainErr suffix = (s', .error e) →
      NoSuccessfulIngest s'

/-- A failed `setup_qa_pipeline` never assigns `self.qa_chain`
(the assignment is the last statement of the happy path). -/
theorem setup_failed_qa_chain_eq (s s' : QAPipelineState) (chunks : List String)
    (storeErr chainErr : Option String) (suffix e : String)
    (h : setup_qa_pipeline s chunks storeErr chainErr suffix = (s', .error e)) :
    s'.qa_chain = s.qa_chain := by
  unfold setup_qa_pipeline at h
  by_cases hc : chunks = [] <;> simp [hc] at h
  · exact h.1 ▸ rfl
  · cases storeErr with
    | some se => simp at h; exact h.1 ▸ rfl
    | none =>
      cases chainErr with
      | some ce => simp at h; exact h.1 ▸ rfl
      | none => simp at h

/-- Before any successful ingest, `self.qa_chain` is still `None`. -/
theorem noIngest_qa_chain_none (s : QAPipelineState)
    (h : NoSuccessfulIngest s) : s.qa_chain = none := by
  induction h with
  | init => rfl
  | setupFailed _ hstep ih =>
    rw [setup_failed_qa_chain_eq _ _ _ _ _ _ _ hstep]
    exact ih

/-- C4: for every question string, calling `query_chain` on a pipeline with
no successful ingest (fresh `__init__` state, or after only failed setup
attempts) raises the pipeline-not-initialized error, whatever the chain
backend would do. -/
theorem query_before_ingest_fails (s : QAPipelineState)
    (h : NoSuccessfulIngest s) :
    ∀ (question : String) (chain : String → Except String ChainOutput),
      query_chain s question chain =
        .error "QA pipeline not initialized. Call setup_qa_pipeline first." := by
  intro question chain
  unfold query_chain
  rw [noIngest_qa_chain_none s h]

/-- Witness for C4: on the fresh state, any concrete question fails with the
not-initialized error. -/
theorem query_before_ingest_fails_witness :
    query_chain initState "What is this about?" (fun _ => .ok ⟨some "hi", []⟩) =
      .error "QA pipeline not initialized. Call setup_qa_pipeline first." :=
  query_before_ingest_fails initState NoSuccessfulIngest.init
    "What is this about?" (fun _ => .ok ⟨some "hi", []⟩)

/-- C3: on an initialized pipeline, an empty or whitespace-only question is
rejected with the empty-question error, and the result does not depend on
the chain backend at all (no backend is contacted). -/
theorem empty_question_fails (s : QAPipelineState) (c : RetrievalQAChain)
    (question : String) (hinit : s.qa_chain = some c)
    (hblank : isBlank question = true) :
    (∀ chain : String → Except String ChainOutput,
        query_chain s question chain = .error "Question cannot be empty") ∧
    (∀ chain₁ chain₂ : String → Except String ChainOutput,
        query_chain s question chain₁ = query_chain s question chain₂) := by
  have key : ∀ chain : String → Except String ChainOutput,
      query_chain s question chain = .error "Question cannot be empty" := by
    intro chain
    unfold query_chain
    rw [hinit, hblank]
    rfl
  exact ⟨key, fun c₁ c₂ => (key c₁).trans (key c₂).symm⟩

/-- Witness for C3: a concrete initialized pipeline rejects `"   "`. -/
theorem empty_question_fails_witness :
    query_chain ⟨some ⟨"col", ["alpha"]⟩, some ⟨⟨"col", ["alpha"]⟩, 3⟩⟩ "   "
      (fun _ => .ok ⟨some "hi", []⟩) = .error "Question cannot be empty" :=
  (empty_question_fails ⟨some ⟨"col", ["alpha"]⟩, some ⟨⟨"col", ["alpha"]⟩, 3⟩⟩
    ⟨⟨"col", ["alpha"]⟩, 3⟩ "   " rfl (by decide)).1
    (fun _ => .ok ⟨some "hi", []⟩)

/-- C1: on an initialized pipeline with a non-blank question, if the chain
call raises any error, `query_chain` does not propagate it: it returns an
`Except.ok` `QueryResult` whose answer is the non-empty message
`"Error processing question: " ++ e`, with no sources and `source_count` 0. -/
theorem chain_error_absorbed (s : QAPipelineState) (c : RetrievalQAChain)
    (question e : String) (chain : String → Except String ChainOutput)
    (hinit : s.qa_chain = some c) (hq : isBlank question = false)
    (herr : chain question = .error e) :
    query_chain s question chain =
      .ok ⟨"Error processing question: " ++ e, [], 0⟩ ∧
    ("Error processing question: " ++ e) ≠ "" := by
  constructor
  · unfold query_chain
    rw [hinit, hq]
    simp [herr]
  · intro habs
    have h1 := congrArg String.length habs
    rw [String.length_append] at h1
    have h2 : ("Error processing question: ").length = 27 := by decide
    have h3 : ("" : String).length = 0 := rfl
    rw [h2, h3] at h1
    omega

/-- Witness for C1: a concrete chain failure is converted into an error
`QueryResult`. -/
theorem chain_error_absorbed_witness :
    query_chain ⟨some ⟨"col", ["alpha"]⟩, some ⟨⟨"col", ["alpha"]⟩, 3⟩⟩ "why?"
      (fun _ => .error "backend down") =
      .ok ⟨"Error processing question: backend down", [], 0⟩ :=
  (chain_error_absorbed ⟨some ⟨"col", ["alpha"]⟩, some ⟨⟨"col", ["alpha"]⟩, 3⟩⟩
    ⟨⟨"col", ["alpha"]⟩, 3⟩ "why?" "backend down"
    (fun _ => .error "backend down") rfl (by decide) rfl).1

/-- C2 (code bug): on a pipeline holding a live vector store, when the
backend `delete_collection` call raises (e.g. the collection is already
gone — note `clear_vector_store` even builds a fresh `chromadb.Client()`
that does not hold the in-memory collection created by `Chroma.from_texts`),
the `except: pass` skips the `self.vector_store = None` and
`self.qa_chain = None` assignments, so the pipeline stays initialized and
a subsequent `query_chain` returns a normal result instead of raising the
pipeline-not-initialized error. When the delete succeeds, the claimed
behaviour does hold (third conjunct). -/
theorem clear_failed_delete_leaves_chain :
    (clear_vector_store ⟨some ⟨"col", ["alpha"]⟩, some ⟨⟨"col", ["alpha"]⟩, 3⟩⟩
        (some "collection col does not exist")).qa_chain =
      some ⟨⟨"col", ["alpha"]⟩, 3⟩ ∧
    query_chain
        (clear_vector_store ⟨some ⟨"col", ["alpha"]⟩, some ⟨⟨"col", ["alpha"]⟩, 3⟩⟩
          (some "collection col does not exist"))
        "anything"
        (fun _ => .ok ⟨some "stale answer", [Doc.pageContent "alpha"]⟩) =
      .ok ⟨"stale answer", ["alpha"], 1⟩ ∧
    query_chain
        (clear_vector_store ⟨some ⟨"col", ["alpha"]⟩, some ⟨⟨"col", ["alpha"]⟩, 3⟩⟩ none)
        "anything"
        (fun _ => .ok ⟨some "stale answer", [Doc.pageContent "alpha"]⟩) =
      .error "QA pipeline not initialized. Call setup_qa_pipeline first." := by
  refine ⟨rfl, ?_, rfl⟩
  show query_chain ⟨some ⟨"col", ["alpha"]⟩, some ⟨⟨"col", ["alpha"]⟩, 3⟩⟩ "anything" _ =
    .ok ⟨"stale answer", ["alpha"], 1⟩
  unfold query_chain
  simp [isBlank, isPyWhitespace, formatSource, truncateSource]
  decide

/-- A successful `setup_qa_pipeline` call with a healthy backend determines
the resulting state completely: the vector store holds exactly the input
chunks under the generated collection name, and the chain retrieves from
that store with `k = 3`. -/
theorem setup_ok_state (s s' : QAPipelineState) (chunks : List String) (suffix : String)
    (h : setup_qa_pipeline s chunks none none suffix = (s', .ok ())) :
    chunks ≠ [] ∧
    s' = ⟨some ⟨"pdf_qa_collection_" ++ suffix, chunks⟩,
          some ⟨⟨"pdf_qa_collection_" ++ suffix, chunks⟩, 3⟩⟩ := by
  unfold setup_qa_pipeline at h
  by_cases hc : chunks = [] <;> simp [hc] at h
  exact ⟨hc, h.symm⟩

/-- The prompt of `setup_qa_pipeline` (lines 93-100) instantiated with a
context and a question, as the `stuff` chain submits it to the LLM
(apostrophes of the original wording elided). -/
def assemblePrompt (context question : String) : String :=
  "Use the following context to answer the question at the end. " ++
  "If you do not know the answer, just say that you do not know, " ++
  "do not try to make up an answer.\n\nContext: " ++ context ++
  "\n\nQuestion: " ++ question ++ "\n\nAnswer:"

/-- Modelled from the spec: the inside of the `RetrievalQA` chain built by
`setup_qa_pipeline` (langchain code, not part of this repository; spec
sections 4.3 and 6). Retrieval ranks the stored entries by similarity to the
question — `rank`, abstract, a permutation of the entries — and keeps the
top `k`; the prompt is assembled from the retrieved texts and the question
and submitted to the LLM (`llm`, abstract, fallible); on success the chain
returns the generated text together with the retrieved source documents. -/
def runChain (c : RetrievalQAChain) (rank : List String → List String)
    (llm : String → Except String String) (question : String) :
    Except String ChainOutput :=
  let docs := (rank c.store.entries).take c.k
  match llm (assemblePrompt (String.intercalate "\n\n" docs) question) with
  | .error e => .error e
  | .ok ans => .ok ⟨some ans, docs.map Doc.pageContent⟩

/-- Unfolding of `query_chain` on a state whose chain is set up. -/
theorem query_chain_some (vso : Option VectorStore) (c : RetrievalQAChain)
    (question : String) (chain : String → Except String ChainOutput) :
    query_chain ⟨vso, some c⟩ question chain =
      if isBlank question then .error "Question cannot be empty"
      else
        match chain question with
        | .error e => .ok ⟨"Error processing question: " ++ e, [], 0⟩
        | .ok result =>
          .ok ⟨result.result.getD "No answer generated",
               result.source_documents.filterMap formatSource,
               (result.source_documents.filterMap formatSource).length⟩ := rfl

/-- Formatting documents that all carry `page_content` truncates each
retrieved text in order, skipping nothing. -/
theorem filterMap_formatSource_pageContent (l : List String) :
    (l.map Doc.pageContent).filterMap formatSource = l.map truncateSource := by
  induction l with
  | nil => rfl
  | cons x xs ih => simp [formatSource, ih]

/-- C6: after a successful ingest of `chunks`, every `query_chain` call that
returns a result at all reports a `source_count` that is at most 3 (the
fixed retrieval `k`) and at most the number of chunks ingested. -/
theorem source_count_bounded (s s' : QAPipelineState) (chunks : List String)
    (suffix question : String) (c : RetrievalQAChain)
    (rank : List String → List String) (llm : String → Except String String)
    (r : QueryResult)
    (hsetup : setup_qa_pipeline s chunks none none suffix = (s', .ok ()))
    (hc : s'.qa_chain = some c)
    (hrank : (rank c.store.entries).Perm c.store.entries)
    (hq : query_chain s' question (runChain c rank llm) = .ok r) :
    r.source_count ≤ 3 ∧ r.source_count ≤ chunks.length := by
  obtain ⟨-, hs'⟩ := setup_ok_state s s' chunks suffix hsetup
  subst hs'
  simp only [QAPipelineState.qa_chain, Option.some.injEq] at hc
  subst hc
  have hlen : (rank chunks).length = chunks.length := hrank.length_eq
  rw [query_chain_some] at hq
  split at hq
  · exact absurd hq (by simp)
  · split at hq
    case _ e heq =>
      simp only [Except.ok.injEq] at hq
      rw [← hq]
      exact ⟨by simp, by simp⟩
    case _ result heq =>
      simp only [Except.ok.injEq] at hq
      unfold runChain at heq
      simp only at heq
      split at heq
      · exact absurd heq (by simp)
      case _ ans hllm =>
        simp only [Except.ok.injEq] at heq
        rw [← hq, ← heq]
        simp only [QueryResult.source_count, filterMap_formatSource_pageContent,
          List.length_map, List.length_take]
        constructor
        · omega
        · have hle : (rank chunks).length = chunks.length := hlen
          omega

/-- Witness for C6: a concrete three-chunk ingest followed by a query with
the identity ranking and a healthy LLM. -/
theorem source_count_bounded_witness :
    (query_chain ⟨some ⟨"pdf_qa_collection_ab", ["a", "b", "c"]⟩,
        some ⟨⟨"pdf_qa_collection_ab", ["a", "b", "c"]⟩, 3⟩⟩ "topic?"
        (runChain ⟨⟨"pdf_qa_collection_ab", ["a", "b", "c"]⟩, 3⟩ id
          (fun _ => .ok "an answer")) =
      .ok ⟨"an answer", ["a", "b", "c"], 3⟩) ∧
    (3 : Nat) ≤ 3 ∧ (3 : Nat) ≤ (["a", "b", "c"] : List String).length := by
  have hq : query_chain ⟨some ⟨"pdf_qa_collection_ab", ["a", "b", "c"]⟩,
      some ⟨⟨"pdf_qa_collection_ab", ["a", "b", "c"]⟩, 3⟩⟩ "topic?"
      (runChain ⟨⟨"pdf_qa_collection_ab", ["a", "b", "c"]⟩, 3⟩ id
        (fun _ => .ok "an answer")) =
      .ok ⟨"an answer", ["a", "b", "c"], 3⟩ := by
    unfold query_chain runChain
    simp [isBlank, isPyWhitespace, formatSource, truncateSource]
    decide
  have hb := source_count_bounded initState
    ⟨some ⟨"pdf_qa_collection_ab", ["a", "b", "c"]⟩,
      some ⟨⟨"pdf_qa_collection_ab", ["a", "b", "c"]⟩, 3⟩⟩
    ["a", "b", "c"] "ab" "topic?"
    ⟨⟨"pdf_qa_collection_ab", ["a", "b", "c"]⟩, 3⟩ id
    (fun _ => .ok "an answer") ⟨"an answer", ["a", "b", "c"], 3⟩
    rfl rfl (List.Perm.refl _) hq
  exact ⟨hq, hb.1, hb.2⟩

/-- C7: after a successful ingest, when the retrieval/generation step of a
`query_chain` call succeeds, the `sources` of the returned `QueryResult` are
exactly the retrieved chunk texts in retrieval order, each passed through
`truncateSource`; and `truncateSource` truncates to the first 200 characters
followed by `"..."` when the text is longer than 200 characters, and leaves
it unmodified otherwise. -/
theorem sources_truncated (s s' : QAPipelineState) (chunks : List String)
    (suffix question : String) (c : RetrievalQAChain)
    (rank : List String → List String) (llm : String → Except String String)
    (out : ChainOutput) (r : QueryResult)
    (hsetup : setup_qa_pipeline s chunks none none suffix = (s', .ok ()))
    (hc : s'.qa_chain = some c)
    (hrun : runChain c rank llm question = .ok out)
    (hq : query_chain s' question (runChain c rank llm) = .ok r) :
    r.sources = ((rank c.store.entries).take c.k).map truncateSource ∧
    ∀ t : String,
      (200 < t.length → truncateSource t = String.mk (t.data.take 200) ++ "...") ∧
      (t.length ≤ 200 → truncateSource t = t) := by
  obtain ⟨-, hs'⟩ := setup_ok_state s s' chunks suffix hsetup
  subst hs'
  simp only [QAPipelineState.qa_chain, Option.some.injEq] at hc
  subst hc
  rw [query_chain_some, hrun] at hq
  constructor
  · split at hq
    · exact absurd hq (by simp)
    · simp only [Except.ok.injEq] at hq
      unfold runChain at hrun
      simp only at hrun
      split at hrun
      · exact absurd hrun (by simp)
      case _ ans hllm =>
        simp only [Except.ok.injEq] at hrun
        rw [← hq, ← hrun]
        simp only [QueryResult.sources, filterMap_formatSource_pageContent]
  · intro t
    constructor
    · intro hlong
      unfold truncateSource
      simp [hlong]
    · intro hshort
      unfold truncateSource
      simp
      omega

/-- Witness for C7: three short chunks, identity ranking, healthy LLM; the
sources come back verbatim (none exceeds 200 characters). -/
theorem sources_truncated_witness :
    (["a", "b", "c"] : List String).map PdfQa.truncateSource = ["a", "b", "c"] ∧
    query_chain ⟨some ⟨"pdf_qa_collection_ab", ["a", "b", "c"]⟩,
        some ⟨⟨"pdf_qa_collection_ab", ["a", "b", "c"]⟩, 3⟩⟩ "topic?"
        (runChain ⟨⟨"pdf_qa_collection_ab", ["a", "b", "c"]⟩, 3⟩ id
          (fun _ => .ok "an answer")) =
      .ok ⟨"an answer", ["a", "b", "c"], 3⟩ := by
  have hrun : runChain ⟨⟨"pdf_qa_collection_ab", ["a", "b", "c"]⟩, 3⟩ id
      (fun _ => .ok "an answer") "topic?" =
      .ok ⟨some "an answer",
        [Doc.pageContent "a", Doc.pageContent "b", Doc.pageContent "c"]⟩ := rfl
  have hq : query_chain ⟨some ⟨"pdf_qa_collection_ab", ["a", "b", "c"]⟩,
      some ⟨⟨"pdf_qa_collection_ab", ["a", "b", "c"]⟩, 3⟩⟩ "topic?"
      (runChain ⟨⟨"pdf_qa_collection_ab", ["a", "b", "c"]⟩, 3⟩ id
        (fun _ => .ok "an answer")) =
      .ok ⟨"an answer", ["a", "b", "c"], 3⟩ := rfl
  have hmain := sources_truncated initState
    ⟨some ⟨"pdf_qa_collection_ab", ["a", "b", "c"]⟩,
      some ⟨⟨"pdf_qa_collection_ab", ["a", "b", "c"]⟩, 3⟩⟩
    ["a", "b", "c"] "ab" "topic?"
    ⟨⟨"pdf_qa_collection_ab", ["a", "b", "c"]⟩, 3⟩ id
    (fun _ => .ok "an answer")
    ⟨some "an answer", [Doc.pageContent "a", Doc.pageContent "b", Doc.pageContent "c"]⟩
    ⟨"an answer", ["a", "b", "c"], 3⟩ rfl rfl hrun hq
  refine ⟨?_, hq⟩
  have := hmain.1
  simp only [QueryResult.sources] at this
  exact this.symm.trans (by decide)

/-- The dictionary returned by `PDFLoader.get_chunk_info`, without the
`avg_chunk_size` field (a rounded float used only for display). -/
structure ChunkInfo where
  total_chunks : Nat
  total_characters : Nat
deriving DecidableEq

/-- `PDFLoader.get_chunk_info` (lines 83-103 of `pdf_loader.py`). -/
def get_chunk_info (chunks : List String) : ChunkInfo :=
  if chunks = [] then ⟨0, 0⟩
  else ⟨chunks.length, (chunks.map String.length).sum⟩

/-- C8: a successful ingest stores exactly the input chunk list — one entry
per chunk, duplicates kept — so the reported `chunk_count` equals the
vector count the store reports. -/
theorem ingest_entry_count (s s' : QAPipelineState) (chunks : List String)
    (suffix : String)
    (hsetup : setup_qa_pipeline s chunks none none suffix = (s', .ok ())) :
    ∃ vs : VectorStore, s'.vector_store = some vs ∧ vs.entries = chunks ∧
      (get_vector_store_info s' false).total_documents = chunks.length ∧
      (get_chunk_info chunks).total_chunks = chunks.length := by
  obtain ⟨hne, hs'⟩ := setup_ok_state s s' chunks suffix hsetup
  subst hs'
  refine ⟨_, rfl, rfl, rfl, ?_⟩
  simp [get_chunk_info, hne]

/-- Witness for C8: ingesting two chunks (with a duplicate) stores both and
reports two documents. -/
theorem ingest_entry_count_witness :
    ∃ vs : VectorStore,
      (setup_qa_pipeline initState ["dup", "dup"] none none "ab").1.vector_store =
        some vs ∧
      vs.entries = ["dup", "dup"] ∧
      (get_vector_store_info
        (setup_qa_pipeline initState ["dup", "dup"] none none "ab").1
        false).total_documents = (["dup", "dup"] : List String).length ∧
      (get_chunk_info ["dup", "dup"]).total_chunks =
        (["dup", "dup"] : List String).length :=
  ingest_entry_count initState _ ["dup", "dup"] "ab" rfl

/-- The exceptions `PDFLoader.load_pdf` lets escape: the two pre-checks
outside the `try` block keep their own types (`FileNotFoundError`,
`ValueError` for a non-PDF path); everything raised inside the `try` block
is re-raised as one generic `Exception` (line 82). -/
inductive LoadError where
  | fileNotFound (msg : String)
  | notPdf (msg : String)
  | processing (msg : String)
deriving DecidableEq

/-- `file_path.lower().endswith(".pdf")` (line 53 of `pdf_loader.py`):
the last four characters of the lower-cased path spell `.pdf`, checked on
the reversed character list. -/
def isPdfPath (path : String) : Bool :=
  (path.data.map Char.toLower).reverse.take 4 = ['f', 'd', 'p', '.']

/-- The page-concatenation loop of `load_pdf` (lines 64-68): each page whose
extracted text is non-empty contributes its text plus a newline. -/
def textContent (pages : List String) : String :=
  pages.foldl (fun acc p => if p = "" then acc else acc ++ p ++ "\n") ""

/-- The body of `load_pdf`'s `try` block (lines 56-79). `pages` is the
outcome of `open` + `PyPDF2.PdfReader` + per-page `extract_text` — an
exception there, like any `ValueError` raised in the block, is an
`Except.error`. `splitter` is `self.text_splitter.split_text`. -/
def load_pdf_try (pages : Except String (List String))
    (splitter : String → List String) : Except String (List String) :=
  match pages with
  | .error e => .error e
  | .ok ps =>
    if ps.length = 0 then .error "PDF file is empty"
    else
      let text := textContent ps
      if isBlank text then .error "No text content found in PDF"
      else
        let chunks := splitter text
        if chunks = [] then .error "Failed to create text chunks"
        else .ok chunks

/-- `PDFLoader.load_pdf` (lines 36-82): existence check, extension check,
then the `try` block whose every failure is re-wrapped with the
`"Error processing PDF: "` prefix. -/
def load_pdf (fileExists : Bool) (path : String)
    (pages : Except String (List String)) (splitter : String → List String) :
    Except LoadError (List String) :=
  if fileExists = false then .error (.fileNotFound ("PDF file not found: " ++ path))
  else if isPdfPath path = false then .error (.notPdf ("File must be a PDF: " ++ path))
  else
    match load_pdf_try pages splitter with
    | .error e => .error (.processing ("Error processing PDF: " ++ e))
    | .ok chunks => .ok chunks

/-- `process_pdf` in `src/main.py` (lines 148-206): chunk the PDF with a
fresh `PDFLoader`, then build a fresh `QAPipeline` and set it up; the
session state is replaced only when everything succeeds, and any exception
leaves it untouched and yields no chunk info. -/
def process_pdf (s : QAPipelineState) (fileExists : Bool) (path : String)
    (pages : Except String (List String)) (splitter : String → List String)
    (storeErr chainErr : Option String) (suffix : String) :
    QAPipelineState × Option ChunkInfo :=
  match load_pdf fileExists path pages splitter with
  | .error _ => (s, none)
  | .ok chunks =>
    match setup_qa_pipeline initState chunks storeErr chainErr suffix with
    | (_, .error _) => (s, none)
    | (s2, .ok _) => (s2, some (get_chunk_info chunks))

/-- C10: whenever `load_pdf` on an existing `.pdf` path fails, the error that
reaches the caller is the single generic processing error whose message
starts with `"Error processing PDF: "` — the distinct `ValueError`
categories raised inside the block (empty PDF, no text, chunking failed) are
re-wrapped and not distinguishable by error type. -/
theorem load_errors_wrapped (path : String)
    (pages : Except String (List String)) (splitter : String → List String)
    (err : LoadError)
    (hp : isPdfPath path = true)
    (h : load_pdf true path pages splitter = .error err) :
    ∃ msg, err = .processing ("Error processing PDF: " ++ msg) := by
  unfold load_pdf at h
  rw [hp] at h
  simp only [Bool.true_eq_false, if_false] at h
  split at h
  case _ e heq =>
    simp only [Except.error.injEq] at h
    exact ⟨e, h.symm⟩
  case _ chunks heq =>
    exact absurd h (by simp)

/-- Witness for C10: a concrete read failure surfaces as the wrapped
generic processing error. -/
theorem load_errors_wrapped_witness :
    ∃ msg, LoadError.processing "Error processing PDF: read failure" =
      .processing ("Error processing PDF: " ++ msg) :=
  load_errors_wrapped "doc.pdf" (.error "read failure") (fun _ => [])
    (.processing "Error processing PDF: read failure") (by decide) rfl

/-- C9: a PDF whose pages yield only empty or whitespace text makes
`load_pdf` fail with the no-text-content error (the `EmptyDocument` case),
and the surrounding `process_pdf` flow then leaves the session pipeline
untouched — in particular, starting from the fresh state, no vector store is
created and the pipeline stays uninitialized. -/
theorem empty_document_rejected (s : QAPipelineState) (path : String)
    (pages : List String) (splitter : String → List String)
    (storeErr chainErr : Option String) (suffix : String)
    (hp : isPdfPath path = true) (hne : pages ≠ [])
    (hblank : isBlank (textContent pages) = true) :
    load_pdf true path (.ok pages) splitter =
      .error (.processing "Error processing PDF: No text content found in PDF") ∧
    process_pdf s true path (.ok pages) splitter storeErr chainErr suffix = (s, none) ∧
    (process_pdf initState true path (.ok pages) splitter storeErr chainErr
        suffix).1.vector_store = none ∧
    (process_pdf initState true path (.ok pages) splitter storeErr chainErr
        suffix).1.qa_chain = none := by
  have hload : load_pdf true path (.ok pages) splitter =
      .error (.processing "Error processing PDF: No text content found in PDF") := by
    unfold load_pdf load_pdf_try
    rw [hp]
    have hlen : pages.length = 0 ↔ False := by
      simp [List.length_eq_zero]
      exact hne
    simp [hblank, hlen]
  have hproc : ∀ s₀ : QAPipelineState,
      process_pdf s₀ true path (.ok pages) splitter storeErr chainErr suffix =
        (s₀, none) := by
    intro s₀
    unfold process_pdf
    rw [hload]
  refine ⟨hload, hproc s, ?_, ?_⟩ <;> rw [hproc initState] <;> rfl

/-- Witness for C9: a one-page PDF whose only extracted text is spaces. -/
theorem empty_document_rejected_witness :
    load_pdf true "doc.pdf" (.ok ["   "]) (fun _ => []) =
      .error (.processing "Error processing PDF: No text content found in PDF") ∧
    process_pdf initState true "doc.pdf" (.ok ["   "]) (fun _ => [])
        none none "ab" = (initState, none) :=
  ⟨(empty_document_rejected initState "doc.pdf" ["   "] (fun _ => [])
      none none "ab" (by decide) (by decide) (by decide)).1,
   (empty_document_rejected initState "doc.pdf" ["   "] (fun _ => [])
      none none "ab" (by decide) (by decide) (by decide)).2.1⟩

/-- Modelled from the spec: separator characters of the Chunker
(spec section 4.1; the splitter configured in `pdf_loader.py` lines 29-34
with separators paragraph break, line break, space, empty string is
langchain code, not part of this repository). After discarding the empty
fragments the split produces, splitting on the priority list
`"\n\n"`, `"\n"`, `" "` is splitting at these characters. -/
def isSepChar (c : Char) : Bool := c = ' ' || c = '\n'

/-- Modelled from the spec: splitting into atomic pieces — maximal runs of
non-separator characters, empty fragments discarded. `cur` accumulates the
current run in reverse. -/
def tokensAux : List Char → List Char → List (List Char)
  | [], cur => if cur = [] then [] else [cur.reverse]
  | c :: rest, cur =>
    if isSepChar c then
      if cur = [] then tokensAux rest []
      else cur.reverse :: tokensAux rest []
    else tokensAux rest (c :: cur)

/-- Modelled from the spec: the atomic pieces of a text. -/
def tokens (text : List Char) : List (List Char) := tokensAux text []

/-- Modelled from the spec: when a chunk is emitted, the next chunk is
seeded with the trailing `co` characters of the previous chunk for context
continuity — kept only while the seeded chunk still fits in `cs`
(the merge pops the overlap again when it would not). -/
def seedNext (cs co : Nat) (prev t : List Char) : List Char :=
  if prev.drop (prev.length - co) ≠ [] ∧
      (prev.drop (prev.length - co) ++ ' ' :: t).length ≤ cs
  then prev.drop (prev.length - co) ++ ' ' :: t
  else t

/-- Modelled from the spec: joining consecutive pieces until the running
length would exceed `cs`; an atomic piece that exceeds `cs` on its own is
emitted as its own chunk (oversize-atomic-token relaxation). -/
def mergeTokens (cs co : Nat) : List (List Char) → List Char → List (List Char)
  | [], cur => if cur = [] then [] else [cur]
  | t :: ts, cur =>
    if cur = [] then mergeTokens cs co ts t
    else if cur.length + 1 + t.length ≤ cs then
      mergeTokens cs co ts (cur ++ ' ' :: t)
    else cur :: mergeTokens cs co ts (seedNext cs co cur t)

/-- Modelled from the spec: `chunk(text, chunk_size, chunk_overlap)`
(spec section 4.1), the splitting step of `load_pdf` (line 74). Text is a
character list; Python `len` is list length. -/
def chunk (cs co : Nat) (text : List Char) : List (List Char) :=
  mergeTokens cs co (tokens text) []

/-- Every token is a non-empty character run. -/
theorem tokensAux_mem_ne_nil (text : List Char) :
    ∀ cur, ∀ t ∈ tokensAux text cur, t ≠ [] := by
  induction text with
  | nil =>
    intro cur t ht
    unfold tokensAux at ht
    by_cases hc : cur = [] <;> simp [hc] at ht
    subst ht
    simp [hc]
  | cons c rest ih =>
    intro cur t ht
    unfold tokensAux at ht
    by_cases hs : isSepChar c <;> simp [hs] at ht
    · by_cases hc : cur = [] <;> simp [hc] at ht
      · exact ih [] t ht
      · rcases ht with ht | ht
        · subst ht; simp [hc]
        · exact ih [] t ht
    · exact ih (c :: cur) t ht

/-- A text containing at least one non-separator character yields at least
one token. -/
theorem tokens_ne_nil (text : List Char)
    (h : ∃ c ∈ text, isSepChar c = false) : tokens text ≠ [] := by
  suffices key : ∀ cur, (∃ c ∈ text, isSepChar c = false) ∨ cur ≠ [] →
      tokensAux text cur ≠ [] from key [] (Or.inl h)
  clear h
  induction text with
  | nil =>
    intro cur hcur
    rcases hcur with h | h
    · simp at h
    · unfold tokensAux
      simp [h]
  | cons c rest ih =>
    intro cur hcur
    unfold tokensAux
    by_cases hs : isSepChar c <;> simp [hs]
    · by_cases hc : cur = [] <;> simp [hc]
      · refine ih [] (Or.inl ?_)
        rcases hcur with ⟨d, hd, hds⟩ | h
        · rcases List.mem_cons.mp hd with hdc | hdm
          · rw [hdc, hs] at hds
            exact absurd hds (by simp)
          · exact ⟨d, hdm, hds⟩
        · exact absurd hc h
    · exact ih (c :: cur) (Or.inr (by simp))

/-- The seeded start of a chunk either fits in `cs` or is exactly the next
token. -/
theorem seedNext_cases (cs co : Nat) (prev t : List Char) :
    (seedNext cs co prev t).length ≤ cs ∨ seedNext cs co prev t = t := by
  unfold seedNext
  split
  case _ hcond => exact Or.inl hcond.2
  case _ => exact Or.inr rfl

/-- Every chunk the merge emits either fits in `cs` or is one of the atomic
pieces. -/
theorem mergeTokens_bound (cs co : Nat) (S : List (List Char)) :
    ∀ (ts : List (List Char)) (cur : List Char),
      (∀ t ∈ ts, t ∈ S) → (cur.length ≤ cs ∨ cur ∈ S) →
      ∀ ch ∈ mergeTokens cs co ts cur, ch.length ≤ cs ∨ ch ∈ S := by
  intro ts
  induction ts with
  | nil =>
    intro cur _ hcur ch hch
    unfold mergeTokens at hch
    by_cases hc : cur = [] <;> simp [hc] at hch
    subst hch
    exact hcur
  | cons t ts ih =>
    intro cur hts hcur ch hch
    have htS : t ∈ S := hts t (by simp)
    have htsS : ∀ u ∈ ts, u ∈ S := fun u hu => hts u (by simp [hu])
    unfold mergeTokens at hch
    by_cases hc : cur = [] <;> simp [hc] at hch
    · exact ih t htsS (Or.inr htS) ch hch
    · by_cases hfit : cur.length + 1 + t.length ≤ cs <;> simp [hfit] at hch
      · refine ih _ htsS (Or.inl ?_) ch hch
        simp only [List.length_append, List.length_cons]
        omega
      · rcases hch with hch | hch
        · subst hch; exact hcur
        · refine ih _ htsS ?_ ch hch
          rcases seedNext_cases cs co cur t with h | h
          · exact Or.inl h
          · rw [h]; exact Or.inr htS

/-- The merge of a non-empty token list (all tokens non-empty) is
non-empty. -/
theorem mergeTokens_ne_nil (cs co : Nat) :
    ∀ (ts : List (List Char)) (cur : List Char),
      (∀ t ∈ ts, t ≠ []) → (cur ≠ [] ∨ ts ≠ []) →
      mergeTokens cs co ts cur ≠ [] := by
  intro ts
  induction ts with
  | nil =>
    intro cur _ hne
    rcases hne with h | h
    · unfold mergeTokens
      simp [h]
    · exact absurd rfl h
  | cons t ts ih =>
    intro cur hts _
    have htne : t ≠ [] := hts t (by simp)
    have htsne : ∀ u ∈ ts, u ≠ [] := fun u hu => hts u (by simp [hu])
    unfold mergeTokens
    by_cases hc : cur = [] <;> simp [hc]
    · exact ih t htsne (Or.inl htne)
    · by_cases hfit : cur.length + 1 + t.length ≤ cs <;> simp [hfit]
      exact ih _ htsne (Or.inl (by simp))

set_option maxRecDepth 8000

/-- C5 (amended): any input containing at least one non-separator character
chunks into a non-empty sequence in which every chunk either has length at
most `cs` or is an atomic separator-free token emitted as its own chunk;
and the 501-character single-word input produces exactly one chunk, longer
than the default `chunk_size` 500. (Separator-only non-empty input, the
pathological `ChunkingFailed` case of spec section 4.1, is excluded: it
produces zero chunks.) -/
theorem chunk_bound_and_oversize :
    (∀ (cs co : Nat) (text : List Char),
      (∃ c ∈ text, isSepChar c = false) →
      chunk cs co text ≠ [] ∧
      ∀ ch ∈ chunk cs co text, ch.length ≤ cs ∨ ch ∈ tokens text) ∧
    chunk 500 50 (List.replicate 501 'a') = [List.replicate 501 'a'] ∧
    500 < (List.replicate 501 'a').length := by
  refine ⟨?_, by decide, by decide⟩
  intro cs co text hex
  constructor
  · exact mergeTokens_ne_nil cs co (tokens text) []
      (tokensAux_mem_ne_nil text []) (Or.inr (tokens_ne_nil text hex))
  · exact mergeTokens_bound cs co (tokens text) (tokens text) []
      (fun t ht => ht) (Or.inl (by simp))

/-- Witness for C5: a concrete two-word input with a tight chunk size
produces non-empty chunks, each within the size bound or atomic. -/
theorem chunk_bound_witness :
    chunk 3 1 ['a', ' ', 'b', 'b'] ≠ [] ∧
    ∀ ch ∈ chunk 3 1 ['a', ' ', 'b', 'b'],
      ch.length ≤ 3 ∨ ch ∈ tokens ['a', ' ', 'b', 'b'] :=
  chunk_bound_and_oversize.1 3 1 ['a', ' ', 'b', 'b'] ⟨'a', by simp, by decide⟩

/-- C5 counterexample to the unamended claim: the single-space input is
non-empty, yet the chunker produces no chunks at all (so not every
non-empty input yields a non-empty chunk sequence). -/
theorem chunk_whitespace_empty :
    ([' '] : List Char) ≠ [] ∧ chunk 500 50 [' '] = [] := by
  constructor
  · simp
  · rfl

end PdfQa
